import Mathlib

/-!
Verification of the real-time camera / frame-clock / animation / shadow engine of
`graphics_utils.py` (uss-enterprise-3d-visualisation).

The Python module keeps its state in module-level globals and mutates them in
per-frame update functions.  The embedding below turns each family of globals
into an explicit state structure and each update function into a state
transformer.  Python floats are modelled exactly: by `ℚ` where the code is pure
rational arithmetic (camera controller, frame clock) and by `ℝ` where the code
uses `np.sin` / `np.sqrt` (animation easing, shadow-matrix normalisation).
The Python float `%` (used as `x % 360.0`) is `x - y * ⌊x / y⌋` for a positive
modulus, and `np.clip(x, lo, hi)` is `min (max x lo) hi`.
-/

/-- Python float `x % y` (sign of the divisor): `x - y * floor (x / y)`. -/
def pymod (x y : ℚ) : ℚ := x - y * (⌊x / y⌋ : ℤ)

/-- `np.clip(x, lo, hi)` over exact rationals. -/
def np_clip (x lo hi : ℚ) : ℚ := min (max x lo) hi

/-- Real-valued variant of Python float `x % y`, for the animation angles. -/
noncomputable def pymodR (x y : ℝ) : ℝ := x - y * (⌊x / y⌋ : ℤ)

/-- Real-valued variant of `np.clip`. -/
noncomputable def np_clipR (x lo hi : ℝ) : ℝ := min (max x lo) hi

-- === CAMERA CONSTANTS (graphics_utils.py lines 25-54) ===

def camera_speed : ℚ := 7
def orbit_speed : ℚ := 100
def pitch_limit : ℚ := 89
def zoom_speed : ℚ := 7/2
def pitch_speed : ℚ := 70
def min_zoom_distance : ℚ := 2
def max_zoom_distance : ℚ := 50
def forward_speed_multiplier : ℚ := 13/10
def strafe_speed_multiplier : ℚ := 13/10
def vertical_speed_multiplier : ℚ := 8/5
def turbo_multiplier : ℚ := 3
def fast_smoothing_threshold : ℚ := 15
def smoothing_boost_on_input : Bool := true
def input_smoothing_factor : ℚ := 15/100
def idle_smoothing_factor : ℚ := 88/100
def fast_mode_smoothing : ℚ := 8/100
def movement_smoothing : ℚ := 82/100

/-- The pressed-key set (`keys_pressed`), restricted to the keys the orbital
camera reads, plus a flag for any other pressed key (`bool(keys_pressed)` is
true as soon as the set is non-empty, whichever key it holds). -/
structure Keys where
  k_a : Bool
  k_d : Bool
  k_q : Bool
  k_e : Bool
  k_w : Bool
  k_s : Bool
  other : Bool
deriving DecidableEq

/-- `bool(keys_pressed)`: some key is pressed. -/
def Keys.hasAny (k : Keys) : Bool :=
  k.k_a || k.k_d || k.k_q || k.k_e || k.k_w || k.k_s || k.other

/-- The orbital-camera globals of graphics_utils.py: `camera_yaw`,
`camera_pitch`, `camera_distance`, `rotation_velocity` (2 components),
`zoom_velocity`, `current_smoothing`, `last_input_time`.  The derived eye
position (`update_orbital_camera`) is a pure trigonometric function of the
first three fields and carries no further state. -/
structure CameraState where
  camera_yaw : ℚ
  camera_pitch : ℚ
  camera_distance : ℚ
  rotation_velocity_yaw : ℚ
  rotation_velocity_pitch : ℚ
  zoom_velocity : ℚ
  current_smoothing : ℚ
  last_input_time : ℚ
deriving DecidableEq

/-- Initial values of the camera globals (lines 28-30, 55, 80, 84-85). -/
def initCamera : CameraState :=
  { camera_yaw := 0, camera_pitch := 0, camera_distance := 8,
    rotation_velocity_yaw := 0, rotation_velocity_pitch := 0, zoom_velocity := 0,
    current_smoothing := movement_smoothing, last_input_time := 0 }

/-- `update_dynamic_smoothing()` (lines 362-399).  `now` is the wall-clock
sample `time.time()` read inside the function. -/
def update_dynamic_smoothing (now : ℚ) (keys : Keys) (turbo_active : Bool)
    (st : CameraState) : CameraState :=
  if smoothing_boost_on_input = false then
    { st with current_smoothing := movement_smoothing }
  else
    let has_input := keys.hasAny
    let current_speed := if turbo_active then camera_speed * turbo_multiplier else camera_speed
    if has_input then
      let target_smoothing :=
        if fast_smoothing_threshold < current_speed ∨ turbo_active = true then
          fast_mode_smoothing
        else input_smoothing_factor
      let transition_speed : ℚ := 15/100
      { st with
        last_input_time := now,
        current_smoothing :=
          st.current_smoothing * (1 - transition_speed) + target_smoothing * transition_speed }
    else
      let time_since_input := now - st.last_input_time
      let target_smoothing :=
        if time_since_input < 2/10 then
          let blend_factor := time_since_input / (2/10)
          if fast_smoothing_threshold < current_speed then
            fast_mode_smoothing + (input_smoothing_factor - fast_mode_smoothing) * blend_factor
          else
            input_smoothing_factor + (idle_smoothing_factor - input_smoothing_factor) * blend_factor
        else idle_smoothing_factor
      let transition_speed : ℚ := 25/100
      { st with
        current_smoothing :=
          st.current_smoothing * (1 - transition_speed) + target_smoothing * transition_speed }

/-- `update_camera_position()` (lines 401-457).  `delta_time` is the global set
by `calculate_delta_time`, passed explicitly; `now` is the wall-clock sample
read by the nested `update_dynamic_smoothing` call. -/
def update_camera_position (now delta_time : ℚ) (keys : Keys) (turbo_active : Bool)
    (st0 : CameraState) : CameraState :=
  let st := update_dynamic_smoothing now keys turbo_active st0
  let effective_orbit_speed := orbit_speed * strafe_speed_multiplier
  let effective_zoom_speed := zoom_speed * forward_speed_multiplier
  let effective_pitch_speed := pitch_speed * vertical_speed_multiplier
  let effective_orbit_speed :=
    if turbo_active then effective_orbit_speed * turbo_multiplier else effective_orbit_speed
  let effective_zoom_speed :=
    if turbo_active then effective_zoom_speed * turbo_multiplier else effective_zoom_speed
  let effective_pitch_speed :=
    if turbo_active then effective_pitch_speed * turbo_multiplier else effective_pitch_speed
  let target_yaw_rate : ℚ := 0
  let target_yaw_rate := if keys.k_a then effective_orbit_speed else target_yaw_rate
  let target_yaw_rate := if keys.k_d then -effective_orbit_speed else target_yaw_rate
  let target_pitch_rate : ℚ := 0
  let target_pitch_rate := if keys.k_q then effective_pitch_speed else target_pitch_rate
  let target_pitch_rate := if keys.k_e then -effective_pitch_speed else target_pitch_rate
  let rotation_velocity_yaw :=
    st.rotation_velocity_yaw * st.current_smoothing + target_yaw_rate * (1 - st.current_smoothing)
  let rotation_velocity_pitch :=
    st.rotation_velocity_pitch * st.current_smoothing + target_pitch_rate * (1 - st.current_smoothing)
  let camera_yaw :=
    if 0 < delta_time then pymod (st.camera_yaw + rotation_velocity_yaw * delta_time) 360
    else st.camera_yaw
  let camera_pitch :=
    if 0 < delta_time then
      np_clip (st.camera_pitch + rotation_velocity_pitch * delta_time) (-pitch_limit) pitch_limit
    else st.camera_pitch
  let target_zoom_velocity : ℚ := 0
  let target_zoom_velocity := if keys.k_w then -effective_zoom_speed else target_zoom_velocity
  let target_zoom_velocity := if keys.k_s then effective_zoom_speed else target_zoom_velocity
  let zoom_velocity :=
    st.zoom_velocity * st.current_smoothing + target_zoom_velocity * (1 - st.current_smoothing)
  let camera_distance :=
    if 0 < delta_time then
      np_clip (st.camera_distance + zoom_velocity * delta_time) min_zoom_distance max_zoom_distance
    else st.camera_distance
  { camera_yaw := camera_yaw, camera_pitch := camera_pitch, camera_distance := camera_distance,
    rotation_velocity_yaw := rotation_velocity_yaw,
    rotation_velocity_pitch := rotation_velocity_pitch,
    zoom_velocity := zoom_velocity,
    current_smoothing := st.current_smoothing, last_input_time := st.last_input_time }

/-- The per-frame inputs to the camera controller: the wall-clock sample, the
frame delta, the pressed keys and the turbo flag. -/
structure CamInput where
  now : ℚ
  dt : ℚ
  keys : Keys
  turbo : Bool
deriving DecidableEq

/-- All camera states observed along a sequence of `update_camera_position`
calls, the initial state included. -/
def camTrace (inputs : List CamInput) : List CameraState :=
  List.scanl (fun st i => update_camera_position i.now i.dt i.keys i.turbo st) initCamera inputs

/-- The range invariant claimed for the camera state: pitch in `[-89, 89]`,
yaw in `[0, 360)`, distance in `[2, 50]`. -/
def CameraInRange (st : CameraState) : Prop :=
  -89 ≤ st.camera_pitch ∧ st.camera_pitch ≤ 89 ∧
  0 ≤ st.camera_yaw ∧ st.camera_yaw < 360 ∧
  2 ≤ st.camera_distance ∧ st.camera_distance ≤ 50

/-- Holding only the A key ("orbit right": positive yaw rate, line 423-424). -/
def keys_a_only : Keys :=
  { k_a := true, k_d := false, k_q := false, k_e := false, k_w := false, k_s := false,
    other := false }

/-- Holding only the Q key (positive pitch rate, line 428-429). -/
def keys_q_only : Keys :=
  { k_a := false, k_d := false, k_q := true, k_e := false, k_w := false, k_s := false,
    other := false }

/-- The end-to-end scenario of the spec: from the default state, hold the
orbit-right control at a fixed `Δt = 1/60`, turbo off.  The wall-clock sample
only feeds `last_input_time` here (input is present on every frame), so it is
fixed at `0`. -/
def cameraSimC7 : ℕ → CameraState
  | 0 => initCamera
  | n + 1 => update_camera_position 0 (1/60) keys_a_only false (cameraSimC7 n)

/-- Inductive invariant for the orbit-right scenario, holding after `n + 1`
update calls: pitch/zoom components stay at rest, the smoothing factor lies in
`[3/20, 18/25]`, the gap of the yaw velocity below the effective rate `130` shrinks
geometrically, and the accumulated yaw is pinched between two affine-geometric
envelopes. -/
def C7Inv (n : ℕ) (st : CameraState) : Prop :=
  st.camera_pitch = 0 ∧ st.camera_distance = 8 ∧
  st.rotation_velocity_pitch = 0 ∧ st.zoom_velocity = 0 ∧
  3/20 ≤ st.current_smoothing ∧ st.current_smoothing ≤ 18/25 ∧
  0 < 130 - st.rotation_velocity_yaw ∧
  130 - st.rotation_velocity_yaw ≤ (18707/200) * (18/25)^n ∧
  0 ≤ st.camera_yaw ∧
  st.camera_yaw ≤ (130 * (n + 1) - 18707/200) / 60 ∧
  (130 * (n + 1) - (18707/56) * (1 - (18/25)^(n+1))) / 60 ≤ st.camera_yaw

-- === FRAME CLOCK (graphics_utils.py lines 57-62, 305-327) ===

/-- The timing globals: `last_frame_time`, `delta_time`, `frame_count`,
`delta_time_sum`. -/
structure ClockState where
  last_frame_time : ℚ
  delta_time : ℚ
  frame_count : ℕ
  delta_time_sum : ℚ
deriving DecidableEq

/-- Initial values of the timing globals (lines 58-61). -/
def initClock : ClockState :=
  { last_frame_time := 0, delta_time := 0, frame_count := 0, delta_time_sum := 0 }

/-- `calculate_delta_time()` (lines 305-327); `current_time` is the wall-clock
sample `time.time()`. -/
def calculate_delta_time (current_time : ℚ) (st : ClockState) : ClockState :=
  let delta_time :=
    if st.last_frame_time = 0 then (1 : ℚ)/60
    else
      let raw_delta := current_time - st.last_frame_time
      if 33/1000 < raw_delta then 33/1000
      else if raw_delta < 1/1000 then 1/1000
      else st.delta_time * (7/10) + raw_delta * (3/10)
  { last_frame_time := current_time, delta_time := delta_time,
    frame_count := st.frame_count + 1, delta_time_sum := st.delta_time_sum + delta_time }

/-- All clock states from the first call (sample `t`) on, through the
subsequent calls with samples `ts`. -/
def clockTrace (t : ℚ) (ts : List ℚ) : List ClockState :=
  List.scanl (fun st now => calculate_delta_time now st) (calculate_delta_time t initClock) ts

-- === SHADOW SYSTEM (graphics_utils.py lines 904-933) ===

/-- `create_shadow_matrix(light_pos, plane_point, plane_normal)`:
normalises the plane normal with `np.linalg.norm`, forms the plane offset
`d = -normal·plane_point` and `dot = a lx + b ly + c lz + d lw`, and returns
the 4x4 planar-projection matrix, row-major as in the source. -/
noncomputable def create_shadow_matrix (light_pos : Fin 4 → ℝ)
    (plane_point plane_normal : Fin 3 → ℝ) : Matrix (Fin 4) (Fin 4) ℝ :=
  let len := Real.sqrt (plane_normal 0 ^ 2 + plane_normal 1 ^ 2 + plane_normal 2 ^ 2)
  let a := plane_normal 0 / len
  let b := plane_normal 1 / len
  let c := plane_normal 2 / len
  let d := -(a * plane_point 0 + b * plane_point 1 + c * plane_point 2)
  let lx := light_pos 0
  let ly := light_pos 1
  let lz := light_pos 2
  let lw := light_pos 3
  let dot := a * lx + b * ly + c * lz + d * lw
  Matrix.of
    ![![dot - a * lx, -b * lx, -c * lx, -d * lx],
      ![-a * ly, dot - b * ly, -c * ly, -d * ly],
      ![-a * lz, -b * lz, dot - c * lz, -d * lz],
      ![-a * lw, -b * lw, -c * lw, dot - d * lw]]

-- === ANIMATION SYSTEM (graphics_utils.py lines 87-221, 556-732) ===

def auto_rotation_enabled : Bool := true
noncomputable def rotation_speed_degrees_per_sec : ℝ := 15
def use_easing : Bool := true
noncomputable def easing_factor : ℝ := 1/10
noncomputable def model_rotation_axis : ℝ × ℝ × ℝ := (0, 1, 0)

/-- The animation globals the claims touch: the global clock and speed
multiplier, the legacy pause flag and auto-rotation, the model-rotation
channel, and the light-channel configuration and phase accumulators. -/
structure AnimState where
  total_animation_time : ℝ
  animation_speed_multiplier : ℝ
  animation_paused : Bool
  current_auto_rotation : ℝ
  model_animation_paused : Bool
  model_rotation_angle : ℝ
  model_rotation_speed : ℝ
  light_orbit_enabled : Bool
  light_orbit_angle : ℝ
  light_orbit_speed : ℝ
  light_bobbing_enabled : Bool
  light_bobbing_speed : ℝ
  light_bobbing_offset : ℝ
  light_path_enabled : Bool
  current_animation_preset : ℕ

/-- One entry of the `animation_presets` dict (lines 169-217).  A field is
`none` exactly when the corresponding key is absent from the dict of that preset. -/
structure PresetEntry where
  name : String
  model_speed : Option ℝ
  model_paused : Option Bool
  light_orbit : Option Bool
  light_orbit_speed : Option ℝ
  light_bobbing : Option Bool
  light_bobbing_speed : Option ℝ
  light_path : Option Bool
  global_speed : Option ℝ

/-- The `animation_presets` dict: keys 1-5, everything else absent. -/
noncomputable def animation_presets (n : ℕ) : Option PresetEntry :=
  if n = 1 then
    some { name := "Showcase", model_speed := some 20, model_paused := some false,
           light_orbit := some true, light_orbit_speed := some 30,
           light_bobbing := some false, light_bobbing_speed := none,
           light_path := none, global_speed := some 1 }
  else if n = 2 then
    some { name := "Dynamic", model_speed := some 60, model_paused := some false,
           light_orbit := some false, light_orbit_speed := none,
           light_bobbing := some true, light_bobbing_speed := some 3,
           light_path := none, global_speed := some (3/2) }
  else if n = 3 then
    some { name := "Cinematic", model_speed := some 0, model_paused := some true,
           light_orbit := some true, light_orbit_speed := some 20,
           light_bobbing := some true, light_bobbing_speed := some (3/2),
           light_path := none, global_speed := some (4/5) }
  else if n = 4 then
    some { name := "Hyperdrive", model_speed := some 120, model_paused := some false,
           light_orbit := some true, light_orbit_speed := some 90,
           light_bobbing := none, light_bobbing_speed := none,
           light_path := some true, global_speed := some (5/2) }
  else if n = 5 then
    some { name := "Zen", model_speed := some 10, model_paused := some false,
           light_orbit := some true, light_orbit_speed := some 15,
           light_bobbing := some true, light_bobbing_speed := some (1/2),
           light_path := none, global_speed := some (3/10) }
  else none

/-- `apply_animation_preset(preset_number)` (lines 708-732).  The Python
function ends with a bare `return` on an unknown id and falls off the end
otherwise, so its return value is `None` on both paths; the second component
records that returned value. -/
noncomputable def apply_animation_preset (preset_number : ℕ) (st : AnimState) :
    AnimState × Option Bool :=
  match animation_presets preset_number with
  | none => (st, none)
  | some preset =>
    ({ st with
       current_animation_preset := preset_number,
       model_rotation_speed := preset.model_speed.getD 30,
       model_animation_paused := preset.model_paused.getD false,
       light_orbit_enabled := preset.light_orbit.getD false,
       light_orbit_speed := preset.light_orbit_speed.getD 45,
       light_bobbing_enabled := preset.light_bobbing.getD false,
       light_bobbing_speed := preset.light_bobbing_speed.getD 2,
       light_path_enabled := preset.light_path.getD false,
       animation_speed_multiplier := preset.global_speed.getD 1 }, none)

/-- The animation-configuration fields `apply_animation_preset` writes. -/
noncomputable def anim_config (st : AnimState) : ℝ × Bool × Bool × ℝ × Bool × ℝ × Bool × ℝ :=
  (st.model_rotation_speed, st.model_animation_paused, st.light_orbit_enabled,
   st.light_orbit_speed, st.light_bobbing_enabled, st.light_bobbing_speed,
   st.light_path_enabled, st.animation_speed_multiplier)

open scoped Classical in
/-- `update_model_animation()` (lines 585-597). -/
noncomputable def update_model_animation (delta_time : ℝ) (st : AnimState) : AnimState :=
  if st.model_animation_paused = false ∧ 0 < delta_time then
    let rotation_delta := st.model_rotation_speed * delta_time * st.animation_speed_multiplier
    let rotation_delta :=
      if use_easing then
        rotation_delta * (1 + easing_factor * Real.sin (st.total_animation_time * (5/10)))
      else rotation_delta
    { st with model_rotation_angle := pymodR (st.model_rotation_angle + rotation_delta) 360 }
  else st

open scoped Classical in
/-- `update_all_animations()` (lines 558-565), the legacy auto-rotation. -/
noncomputable def update_all_animations (delta_time : ℝ) (st : AnimState) : AnimState :=
  if st.animation_paused = false ∧ 0 < delta_time then
    if auto_rotation_enabled then
      { st with
        current_auto_rotation :=
          pymodR (st.current_auto_rotation + rotation_speed_degrees_per_sec * delta_time) 360 }
    else st
  else st

open scoped Classical in
/-- `update_all_animation_systems()` (lines 576-583): accumulate the global
animation clock, then update the model channel, then the legacy channel. -/
noncomputable def update_all_animation_systems (delta_time : ℝ) (st : AnimState) : AnimState :=
  if 0 < delta_time then
    update_all_animations delta_time
      (update_model_animation delta_time
        { st with
          total_animation_time :=
            st.total_animation_time + delta_time * st.animation_speed_multiplier })
  else st

/-- `apply_model_animation_transforms()` (lines 638-644): the `glRotatef`
command it emits (angle and axis), or `none` when the model animation is
paused and no rotation is applied. -/
noncomputable def apply_model_animation_transforms (st : AnimState) : Option (ℝ × (ℝ × ℝ × ℝ)) :=
  if st.model_animation_paused = false then some (st.model_rotation_angle, model_rotation_axis)
  else none

/-- `get_total_model_rotation()` (lines 646-650). -/
noncomputable def get_total_model_rotation (st : AnimState) : ℝ :=
  if st.model_animation_paused = true then 0 else st.model_rotation_angle

/-- A concrete animation state whose global pause flag is set (used as the
counterexample input for the global-pause claim and as witness input). -/
noncomputable def paused_anim_state : AnimState :=
  { total_animation_time := 0, animation_speed_multiplier := 1, animation_paused := true,
    current_auto_rotation := 0, model_animation_paused := true, model_rotation_angle := 5,
    model_rotation_speed := 30, light_orbit_enabled := false, light_orbit_angle := 7,
    light_orbit_speed := 45, light_bobbing_enabled := false, light_bobbing_speed := 2,
    light_bobbing_offset := 0, light_path_enabled := false, current_animation_preset := 1 }

/-- A camera state sitting exactly at the upper pitch limit with a positive
residual pitch velocity (the counterexample input for the pitch-limit claim). -/
def pinned_state : CameraState :=
  { camera_yaw := 0, camera_pitch := 89, camera_distance := 8,
    rotation_velocity_yaw := 0, rotation_velocity_pitch := 112, zoom_velocity := 0,
    current_smoothing := 82/100, last_input_time := 0 }

-- === HELPER LEMMAS ===

theorem pymod_nonneg (x y : ℚ) (hy : 0 < y) : 0 ≤ pymod x y := by
  have h := Int.floor_le (x / y)
  have h2 : (⌊x / y⌋ : ℚ) * y ≤ x := by
    rw [← le_div_iff₀ hy]; exact h
  simp only [pymod]
  nlinarith

theorem pymod_lt (x y : ℚ) (hy : 0 < y) : pymod x y < y := by
  have h := Int.lt_floor_add_one (x / y)
  have h2 : x < ((⌊x / y⌋ : ℚ) + 1) * y := by
    rw [← div_lt_iff₀ hy]; exact h
  simp only [pymod]
  nlinarith

theorem pymod_eq_self (x y : ℚ) (hy : 0 < y) (h0 : 0 ≤ x) (h1 : x < y) : pymod x y = x := by
  have hfl : ⌊x / y⌋ = 0 := by
    rw [Int.floor_eq_zero_iff, Set.mem_Ico]
    exact ⟨by positivity, (div_lt_one hy).mpr h1⟩
  simp [pymod, hfl]

theorem np_clip_mem (x lo hi : ℚ) (h : lo ≤ hi) :
    lo ≤ np_clip x lo hi ∧ np_clip x lo hi ≤ hi :=
  ⟨le_min (le_max_right x lo) h, min_le_right _ _⟩

/-- Invariant propagation along `List.scanl`. -/
theorem scanl_inv {α σ : Type} (f : σ → α → σ) (P : σ → Prop) (Q : α → Prop)
    (hstep : ∀ s a, P s → Q a → P (f s a)) :
    ∀ (l : List α) (s : σ), P s → (∀ a ∈ l, Q a) → ∀ x ∈ List.scanl f s l, P x := by
  intro l
  induction l with
  | nil =>
    intro s hs _ x hx
    simp only [List.scanl, List.mem_singleton] at hx
    exact hx ▸ hs
  | cons a l ih =>
    intro s hs hq x hx
    simp only [List.scanl, List.mem_cons] at hx
    rcases hx with rfl | hx
    · exact hs
    · exact ih (f s a) (hstep s a hs (hq a (List.mem_cons_self a l)))
        (fun b hb => hq b (List.mem_cons_of_mem a hb)) x hx

/-- One `update_camera_position` call with a positive delta lands in the
claimed ranges whatever the previous state and inputs were: the pitch and
distance are written through `np_clip` and the yaw through `% 360`. -/
theorem update_camera_position_in_range (now dt : ℚ) (keys : Keys) (turbo : Bool)
    (st : CameraState) (hdt : 0 < dt) :
    CameraInRange (update_camera_position now dt keys turbo st) := by
  unfold CameraInRange update_camera_position
  simp only [hdt, if_true, pitch_limit, min_zoom_distance, max_zoom_distance]
  refine ⟨(np_clip_mem _ (-89) 89 (by norm_num)).1, (np_clip_mem _ (-89) 89 (by norm_num)).2,
    pymod_nonneg _ 360 (by norm_num), pymod_lt _ 360 (by norm_num),
    (np_clip_mem _ 2 50 (by norm_num)).1, (np_clip_mem _ 2 50 (by norm_num)).2⟩

set_option maxHeartbeats 1000000 in
/-- Claim C1: for every sequence of `update_camera_position` calls, with any
pressed-control sets, turbo flags, and positive delta times, every camera
state along the trace (starting from the defaults yaw=0, pitch=0, distance=8)
has pitch in `[-89, 89]`, yaw in `[0, 360)`, and distance in `[2, 50]`. -/
theorem camera_state_invariant (inputs : List CamInput)
    (h : ∀ i ∈ inputs, 0 < i.dt) :
    ∀ st ∈ camTrace inputs, CameraInRange st := by
  have hinit : CameraInRange initCamera := by
    unfold CameraInRange initCamera
    norm_num
  intro st hst
  unfold camTrace at hst
  exact scanl_inv _ CameraInRange (fun i => 0 < i.dt)
    (fun s a hs ha => update_camera_position_in_range a.now a.dt a.keys a.turbo s ha)
    inputs initCamera hinit h st hst

/-- Witness for C1: a concrete one-step input sequence and a concrete state of
its trace. -/
theorem camera_state_invariant_witness : CameraInRange initCamera :=
  camera_state_invariant [⟨0, 1/60, keys_a_only, false⟩]
    (by intro i hi; simp only [List.mem_singleton] at hi; subst hi; norm_num)
    initCamera (by simp [camTrace, List.scanl])

/-- A single clock tick keeps the reported delta inside `[0.001, 0.033]`
whenever the incoming delta is inside it (the first-call branch writes `1/60`,
the two clamp branches write the bounds, and the blend of two in-range values
stays in range). -/
theorem calculate_delta_time_bounds (now : ℚ) (st : ClockState)
    (h : 1/1000 ≤ st.delta_time ∧ st.delta_time ≤ 33/1000) :
    1/1000 ≤ (calculate_delta_time now st).delta_time ∧
      (calculate_delta_time now st).delta_time ≤ 33/1000 := by
  unfold calculate_delta_time
  dsimp only
  split_ifs with h1 h2 h3
  · norm_num
  · norm_num
  · norm_num
  · push_neg at h2 h3
    constructor <;> nlinarith [h.1, h.2]

/-- Claim C2: the first `calculate_delta_time` call (from the initial globals,
`last_frame_time = 0`) reports exactly `1/60`; and every state along any
subsequent call sequence, whatever the wall-clock samples, reports a delta in
`[0.001, 0.033]`. -/
theorem frame_clock_first_tick_and_bounds (t : ℚ) (ts : List ℚ) :
    (calculate_delta_time t initClock).delta_time = 1/60 ∧
    ∀ st ∈ clockTrace t ts, 1/1000 ≤ st.delta_time ∧ st.delta_time ≤ 33/1000 := by
  have hfirst : (calculate_delta_time t initClock).delta_time = 1/60 := by
    simp [calculate_delta_time, initClock]
  refine ⟨hfirst, ?_⟩
  have hbase : 1/1000 ≤ (calculate_delta_time t initClock).delta_time ∧
      (calculate_delta_time t initClock).delta_time ≤ 33/1000 := by
    rw [hfirst]; norm_num
  exact scanl_inv _ (fun s => 1/1000 ≤ s.delta_time ∧ s.delta_time ≤ 33/1000) (fun _ => True)
    (fun s a hs _ => calculate_delta_time_bounds a s hs) ts _ hbase (fun _ _ => trivial)

/-- Witness for C2 at concrete wall-clock samples. -/
theorem frame_clock_first_tick_and_bounds_witness :
    (calculate_delta_time 5 initClock).delta_time = 1/60 ∧
    (1/1000 ≤ (calculate_delta_time 5 initClock).delta_time ∧
      (calculate_delta_time 5 initClock).delta_time ≤ 33/1000) :=
  ⟨(frame_clock_first_tick_and_bounds 5 []).1,
   (frame_clock_first_tick_and_bounds 5 []).2 _ (by simp [clockTrace, List.scanl])⟩

/-- Counterexample to claim C3: at `last_frame_time = 1`, `delta_time = 1/60`,
a wall-clock sample `2` gives a raw delta of `1` second, above the clamp; the
code then reports the clamp bound `0.033` directly, not the exponential blend
`(1/60)*0.7 + 0.033*0.3` of the previous delta with the clamped raw delta. -/
theorem frame_clock_blend_counterexample :
    (calculate_delta_time 2 ⟨1, 1/60, 1, 1/60⟩).delta_time = 33/1000 ∧
    (33/1000 : ℚ) ≠ (1/60) * (7/10) + (33/1000) * (3/10) := by
  constructor
  · norm_num [calculate_delta_time]
  · norm_num

/-- Claim C3 amended: on calls after the first, the exponential blend
`prev*0.7 + raw*0.3` is applied only when the raw delta already lies inside
`[0.001, 0.033]`; a raw delta outside the clamp bounds sets the reported delta
directly to the violated bound, with no blend. -/
theorem frame_clock_blend_amended (now : ℚ) (st : ClockState)
    (h : st.last_frame_time ≠ 0) :
    (33/1000 < now - st.last_frame_time →
      (calculate_delta_time now st).delta_time = 33/1000) ∧
    (now - st.last_frame_time < 1/1000 →
      (calculate_delta_time now st).delta_time = 1/1000) ∧
    (1/1000 ≤ now - st.last_frame_time → now - st.last_frame_time ≤ 33/1000 →
      (calculate_delta_time now st).delta_time =
        st.delta_time * (7/10) + (now - st.last_frame_time) * (3/10)) := by
  unfold calculate_delta_time
  dsimp only
  rw [if_neg h]
  refine ⟨fun h1 => ?_, fun h2 => ?_, fun h3 h4 => ?_⟩
  · rw [if_pos h1]
  · rw [if_neg (by linarith), if_pos h2]
  · rw [if_neg (by linarith), if_neg (by linarith)]

/-- Witness for the amended C3 at a concrete over-long raw delta. -/
theorem frame_clock_blend_amended_witness :
    (calculate_delta_time 2 ⟨1, 1/60, 1, 1/60⟩).delta_time = 33/1000 :=
  (frame_clock_blend_amended 2 ⟨1, 1/60, 1, 1/60⟩ (by norm_num)).1 (by norm_num)

/-- Claim C4: for the shadow matrix built from light `(5,5,5,1)`, plane point
`(0,0,0)` and plane normal `(0,1,0)`, applying the matrix to the homogeneous
point `(0,0,0,1)` and dividing by the (nonzero) w component returns `(0,0,0)`:
a point already on the plane is a fixed point of the projection. -/
theorem shadow_matrix_plane_point_fixed :
    (create_shadow_matrix ![5, 5, 5, 1] ![0, 0, 0] ![0, 1, 0]).mulVec ![0, 0, 0, 1] 3 ≠ 0 ∧
    (create_shadow_matrix ![5, 5, 5, 1] ![0, 0, 0] ![0, 1, 0]).mulVec ![0, 0, 0, 1] 0 /
      (create_shadow_matrix ![5, 5, 5, 1] ![0, 0, 0] ![0, 1, 0]).mulVec ![0, 0, 0, 1] 3 = 0 ∧
    (create_shadow_matrix ![5, 5, 5, 1] ![0, 0, 0] ![0, 1, 0]).mulVec ![0, 0, 0, 1] 1 /
      (create_shadow_matrix ![5, 5, 5, 1] ![0, 0, 0] ![0, 1, 0]).mulVec ![0, 0, 0, 1] 3 = 0 ∧
    (create_shadow_matrix ![5, 5, 5, 1] ![0, 0, 0] ![0, 1, 0]).mulVec ![0, 0, 0, 1] 2 /
      (create_shadow_matrix ![5, 5, 5, 1] ![0, 0, 0] ![0, 1, 0]).mulVec ![0, 0, 0, 1] 3 = 0 := by
  simp only [create_shadow_matrix, Matrix.mulVec, Matrix.dotProduct, Fin.sum_univ_four,
    Matrix.of_apply, Matrix.cons_val', Matrix.cons_val_zero, Matrix.cons_val_one,
    Matrix.head_cons, Matrix.head_fin_const, Matrix.cons_val_fin_one, Matrix.empty_val',
    Matrix.cons_val_two, Matrix.cons_val_three, Matrix.tail_cons]
  norm_num

/-- Counterexample to claim C5: with the global pause flag `animation_paused`
set and a positive delta, `update_all_animation_systems` still advances
`total_animation_time` (the accumulation is gated only on `delta_time > 0`,
not on any pause flag). -/
theorem total_time_ignores_pause_counterexample :
    paused_anim_state.animation_paused = true ∧
    (update_all_animation_systems (1/60) paused_anim_state).total_animation_time ≠
      paused_anim_state.total_animation_time := by
  refine ⟨rfl, ?_⟩
  have h1 : (update_all_animation_systems (1/60) paused_anim_state).total_animation_time
      = 1/60 := by
    rw [update_all_animation_systems, if_pos (by norm_num : (0:ℝ) < 1/60)]
    rw [update_model_animation, if_neg (by simp [paused_anim_state])]
    rw [update_all_animations, if_neg (by simp [paused_anim_state])]
    norm_num [paused_anim_state]
  rw [h1]
  norm_num [paused_anim_state]

/-- Claim C5 amended: on every `update_all_animation_systems` call with a
positive delta, `total_animation_time` is incremented by
`delta * animation_speed_multiplier` unconditionally — the pause flags gate
only the rotation accumulators, not the global animation clock. -/
theorem total_time_accumulates_always (dt : ℝ) (st : AnimState) (h : 0 < dt) :
    (update_all_animation_systems dt st).total_animation_time =
      st.total_animation_time + dt * st.animation_speed_multiplier := by
  rw [update_all_animation_systems, if_pos h]
  have h1 : ∀ s : AnimState,
      (update_model_animation dt s).total_animation_time = s.total_animation_time := by
    intro s; unfold update_model_animation; split_ifs <;> rfl
  have h2 : ∀ s : AnimState,
      (update_all_animations dt s).total_animation_time = s.total_animation_time := by
    intro s; unfold update_all_animations; split_ifs <;> rfl
  rw [h2, h1]

/-- Witness for the amended C5 at a concrete positive delta and state. -/
theorem total_time_accumulates_always_witness :
    (update_all_animation_systems 1 paused_anim_state).total_animation_time =
      paused_anim_state.total_animation_time +
        1 * paused_anim_state.animation_speed_multiplier :=
  total_time_accumulates_always 1 paused_anim_state (by norm_num)

/-- Claim C6: applying any preset present in the table overwrites the whole
animation configuration (model speed and pause flag, the three light-channel
enables, the orbit/bobbing speeds, the path flag, the global multiplier) with
values that depend only on the preset — fields absent from the table entry get
the fixed `.get` defaults — and leaves `model_rotation_angle`,
`total_animation_time`, `light_orbit_angle` and `light_bobbing_offset`
untouched; in particular Hyperdrive (4) then Zen (5) leaves the rotation angle
and total time equal to their values before the two calls. -/
theorem apply_preset_overwrites_config_preserves_phases :
    (∀ (n : ℕ) (st st' : AnimState), (animation_presets n).isSome →
      ((apply_animation_preset n st).1.model_rotation_angle = st.model_rotation_angle ∧
       (apply_animation_preset n st).1.total_animation_time = st.total_animation_time ∧
       (apply_animation_preset n st).1.light_orbit_angle = st.light_orbit_angle ∧
       (apply_animation_preset n st).1.light_bobbing_offset = st.light_bobbing_offset) ∧
      anim_config (apply_animation_preset n st).1 = anim_config (apply_animation_preset n st').1) ∧
    ∀ st : AnimState,
      (apply_animation_preset 5 (apply_animation_preset 4 st).1).1.model_rotation_angle =
        st.model_rotation_angle ∧
      (apply_animation_preset 5 (apply_animation_preset 4 st).1).1.total_animation_time =
        st.total_animation_time := by
  have key : ∀ (n : ℕ) (st st' : AnimState), (animation_presets n).isSome →
      ((apply_animation_preset n st).1.model_rotation_angle = st.model_rotation_angle ∧
       (apply_animation_preset n st).1.total_animation_time = st.total_animation_time ∧
       (apply_animation_preset n st).1.light_orbit_angle = st.light_orbit_angle ∧
       (apply_animation_preset n st).1.light_bobbing_offset = st.light_bobbing_offset) ∧
      anim_config (apply_animation_preset n st).1 =
        anim_config (apply_animation_preset n st').1 := by
    intro n st st' hn
    obtain ⟨p, hp⟩ := Option.isSome_iff_exists.mp hn
    unfold apply_animation_preset
    rw [hp]
    exact ⟨⟨rfl, rfl, rfl, rfl⟩, rfl⟩
  refine ⟨key, fun st => ?_⟩
  have h4 : (animation_presets 4).isSome := rfl
  have h5 : (animation_presets 5).isSome := rfl
  obtain ⟨hA, -⟩ := key 4 st st h4
  obtain ⟨hB, -⟩ := key 5 (apply_animation_preset 4 st).1 (apply_animation_preset 4 st).1 h5
  exact ⟨hB.1.trans hA.1, hB.2.1.trans hA.2.1⟩

/-- Witness for C6 at the concrete preset id 3. -/
theorem apply_preset_overwrites_config_preserves_phases_witness :
    ((apply_animation_preset 3 paused_anim_state).1.model_rotation_angle =
       paused_anim_state.model_rotation_angle ∧
     (apply_animation_preset 3 paused_anim_state).1.total_animation_time =
       paused_anim_state.total_animation_time ∧
     (apply_animation_preset 3 paused_anim_state).1.light_orbit_angle =
       paused_anim_state.light_orbit_angle ∧
     (apply_animation_preset 3 paused_anim_state).1.light_bobbing_offset =
       paused_anim_state.light_bobbing_offset) ∧
    anim_config (apply_animation_preset 3 paused_anim_state).1 =
      anim_config (apply_animation_preset 3 paused_anim_state).1 :=
  apply_preset_overwrites_config_preserves_phases.1 3 paused_anim_state paused_anim_state rfl

/-- Counterexample to claim C9: on the unknown preset id 99 the function is a
no-op on the state — but its Python return value is `None` on every path (a
bare `return`), not a boolean "not applied" signal. -/
theorem invalid_preset_signal_counterexample :
    (apply_animation_preset 99 paused_anim_state).1 = paused_anim_state ∧
    (apply_animation_preset 99 paused_anim_state).2 ≠ some true ∧
    (apply_animation_preset 99 paused_anim_state).2 ≠ some false := by
  refine ⟨rfl, ?_, ?_⟩ <;> simp [apply_animation_preset, animation_presets]

/-- Claim C9 amended: every preset id absent from the table leaves the
animation state entirely unchanged and raises no exception, and the function
returns `None` (the implicit Python return, same as on success) rather than a
boolean "not applied" signal. -/
theorem invalid_preset_noop (n : ℕ) (st : AnimState)
    (h : animation_presets n = none) :
    apply_animation_preset n st = (st, none) := by
  unfold apply_animation_preset
  rw [h]

/-- Witness for the amended C9 at the concrete unknown id 99. -/
theorem invalid_preset_noop_witness :
    apply_animation_preset 99 paused_anim_state = (paused_anim_state, none) :=
  invalid_preset_noop 99 paused_anim_state rfl

/-- Claim C10: while the model animation is paused `get_total_model_rotation`
returns `0.0` whatever the preserved `model_rotation_angle` is, and
`apply_model_animation_transforms` emits no rotation, while
`update_model_animation` leaves the stored angle unchanged; on resume the
accessor reports the stored angle again. -/
theorem paused_rotation_snaps_to_zero (st : AnimState) (dt : ℝ) :
    (st.model_animation_paused = true →
      get_total_model_rotation st = 0 ∧
      apply_model_animation_transforms st = none ∧
      (update_model_animation dt st).model_rotation_angle = st.model_rotation_angle) ∧
    (st.model_animation_paused = false →
      get_total_model_rotation st = st.model_rotation_angle ∧
      apply_model_animation_transforms st = some (st.model_rotation_angle, model_rotation_axis)) := by
  constructor
  · intro hp
    refine ⟨?_, ?_, ?_⟩
    · simp [get_total_model_rotation, hp]
    · simp [apply_model_animation_transforms, hp]
    · rw [update_model_animation, if_neg (by simp [hp])]
  · intro hp
    exact ⟨by simp [get_total_model_rotation, hp], by simp [apply_model_animation_transforms, hp]⟩

/-- Witness for C10 at a concrete paused state with a nonzero stored angle. -/
theorem paused_rotation_snaps_to_zero_witness :
    get_total_model_rotation paused_anim_state = 0 ∧
    apply_model_animation_transforms paused_anim_state = none ∧
    (update_model_animation 1 paused_anim_state).model_rotation_angle =
      paused_anim_state.model_rotation_angle :=
  (paused_rotation_snaps_to_zero paused_anim_state 1).1 rfl

/-- Counterexample to claim C8: a state pinned at the +89 pitch limit with a
positive residual pitch velocity, with the pitch-up key held: the update
clamps the pitch value back to 89 but the stored pitch rate stays strictly
positive (112 °/s) — integration toward the limit is not stopped or zeroed. -/
theorem pitch_limit_counterexample :
    (update_camera_position 0 (1/60) keys_q_only false pinned_state).camera_pitch = 89 ∧
    0 < (update_camera_position 0 (1/60) keys_q_only false pinned_state).rotation_velocity_pitch := by
  constructor <;>
    norm_num [update_camera_position, update_dynamic_smoothing, keys_q_only, pinned_state,
      Keys.hasAny, np_clip, camera_speed, turbo_multiplier, fast_smoothing_threshold,
      fast_mode_smoothing, input_smoothing_factor, pitch_speed, vertical_speed_multiplier,
      pitch_limit, min_zoom_distance, max_zoom_distance, movement_smoothing,
      smoothing_boost_on_input, min_def, max_def]

/-- `update_dynamic_smoothing` neither reads nor writes the pitch field. -/
theorem update_dynamic_smoothing_pitch_mix (now : ℚ) (keys : Keys) (turbo : Bool)
    (st : CameraState) (p : ℚ) :
    update_dynamic_smoothing now keys turbo { st with camera_pitch := p } =
      { update_dynamic_smoothing now keys turbo st with camera_pitch := p } := by
  unfold update_dynamic_smoothing
  dsimp only
  split_ifs <;> rfl

/-- Claim C8 amended: the camera update clamps the pitch value into
`[-89, 89]` on every frame, but the stored pitch rate is computed
independently of the current pitch — hitting the limit does not zero or
suppress the rate, the value is merely clipped each frame. -/
theorem pitch_clamped_rate_persists (now dt : ℚ) (keys : Keys) (turbo : Bool)
    (st : CameraState) (p : ℚ) (hdt : 0 < dt) :
    (update_camera_position now dt keys turbo
        { st with camera_pitch := p }).rotation_velocity_pitch =
      (update_camera_position now dt keys turbo st).rotation_velocity_pitch ∧
    -89 ≤ (update_camera_position now dt keys turbo st).camera_pitch ∧
    (update_camera_position now dt keys turbo st).camera_pitch ≤ 89 := by
  refine ⟨?_, (update_camera_position_in_range now dt keys turbo st hdt).1,
    (update_camera_position_in_range now dt keys turbo st hdt).2.1⟩
  unfold update_camera_position
  rw [update_dynamic_smoothing_pitch_mix]

/-- Witness for the amended C8 at the concrete pinned state. -/
theorem pitch_clamped_rate_persists_witness :
    (update_camera_position 0 (1/60) keys_q_only false
        { pinned_state with camera_pitch := 0 }).rotation_velocity_pitch =
      (update_camera_position 0 (1/60) keys_q_only false pinned_state).rotation_velocity_pitch ∧
    -89 ≤ (update_camera_position 0 (1/60) keys_q_only false pinned_state).camera_pitch ∧
    (update_camera_position 0 (1/60) keys_q_only false pinned_state).camera_pitch ≤ 89 :=
  pitch_clamped_rate_persists 0 (1/60) keys_q_only false pinned_state 0 (by norm_num)

/-- Closed form of one orbit-right scenario step: input present on every
frame, base speed below the fast threshold and turbo off, so the smoothing
target is `0.15` with transition rate `0.15`, and the effective yaw-rate
target is `orbit_speed * strafe_speed_multiplier = 130`. -/
theorem c7_step (st : CameraState) :
    update_camera_position 0 (1/60) keys_a_only false st =
      { camera_yaw := pymod (st.camera_yaw +
          (st.rotation_velocity_yaw * (st.current_smoothing * (17/20) + 9/400) +
            130 * (1 - (st.current_smoothing * (17/20) + 9/400))) * (1/60)) 360,
        camera_pitch := np_clip (st.camera_pitch +
          st.rotation_velocity_pitch * (st.current_smoothing * (17/20) + 9/400) * (1/60))
          (-89) 89,
        camera_distance := np_clip (st.camera_distance +
          st.zoom_velocity * (st.current_smoothing * (17/20) + 9/400) * (1/60)) 2 50,
        rotation_velocity_yaw :=
          st.rotation_velocity_yaw * (st.current_smoothing * (17/20) + 9/400) +
            130 * (1 - (st.current_smoothing * (17/20) + 9/400)),
        rotation_velocity_pitch :=
          st.rotation_velocity_pitch * (st.current_smoothing * (17/20) + 9/400),
        zoom_velocity := st.zoom_velocity * (st.current_smoothing * (17/20) + 9/400),
        current_smoothing := st.current_smoothing * (17/20) + 9/400,
        last_input_time := 0 } := by
  simp only [update_camera_position, update_dynamic_smoothing, keys_a_only, Keys.hasAny,
    smoothing_boost_on_input, camera_speed, turbo_multiplier, fast_smoothing_threshold,
    fast_mode_smoothing, input_smoothing_factor, idle_smoothing_factor, movement_smoothing,
    orbit_speed, strafe_speed_multiplier, zoom_speed, forward_speed_multiplier, pitch_speed,
    vertical_speed_multiplier, pitch_limit, min_zoom_distance, max_zoom_distance]
  norm_num [CameraState.mk.injEq]

/-- Base case: the scenario invariant holds after the first update call. -/
theorem c7_inv_base : C7Inv 0 (cameraSimC7 1) := by
  have h1 : cameraSimC7 1 = update_camera_position 0 (1/60) keys_a_only false initCamera := rfl
  rw [h1, c7_step]
  unfold C7Inv initCamera movement_smoothing
  dsimp only
  have hyaw : pymod (0 + (0 * ((82:ℚ)/100 * (17/20) + 9/400) +
      130 * (1 - (82/100 * (17/20) + 9/400))) * (1/60)) 360 = 7293/12000 := by
    rw [show (0:ℚ) + (0 * ((82:ℚ)/100 * (17/20) + 9/400) +
      130 * (1 - (82/100 * (17/20) + 9/400))) * (1/60) = 7293/12000 by norm_num]
    exact pymod_eq_self _ _ (by norm_num) (by norm_num) (by norm_num)
  rw [hyaw]
  norm_num [np_clip]

set_option maxHeartbeats 1000000 in
/-- Inductive step for the scenario invariant, valid while the frame count
stays within the one-second (60-frame) horizon so the yaw wrap is trivial. -/
theorem c7_inv_step (n : ℕ) (st : CameraState) (hn : n + 2 ≤ 60) (h : C7Inv n st) :
    C7Inv (n + 1) (update_camera_position 0 (1/60) keys_a_only false st) := by
  obtain ⟨hp, hdist, hrvp, hzoom, hslo, hshi, hdpos, hdle, hylo, hyhi, hyge⟩ := h
  rw [c7_step]
  unfold C7Inv
  dsimp only
  set s := st.current_smoothing with hs
  set v := st.rotation_velocity_yaw with hv
  set y := st.camera_yaw with hy
  have hs'lo : 3/20 ≤ s * (17/20) + 9/400 := by linarith
  have hs'hi : s * (17/20) + 9/400 ≤ 18/25 := by linarith
  have hs'pos : 0 < s * (17/20) + 9/400 := by linarith
  have hrn_pos : 0 < ((18:ℚ)/25) ^ n := by positivity
  have hrn1_pos : 0 < ((18:ℚ)/25) ^ (n+1) := by positivity
  have hrn1_le : ((18:ℚ)/25) ^ (n+1) ≤ 1 := pow_le_one₀ (by norm_num) (by norm_num)
  have hd' : 130 - (v * (s * (17/20) + 9/400) + 130 * (1 - (s * (17/20) + 9/400)))
      = (130 - v) * (s * (17/20) + 9/400) := by ring
  have hd'pos : 0 < (130 - v) * (s * (17/20) + 9/400) := mul_pos hdpos hs'pos
  have hd'le : (130 - v) * (s * (17/20) + 9/400) ≤ (18707/200) * (18/25) ^ (n+1) := by
    have hmul : (130 - v) * (s * (17/20) + 9/400) ≤
        ((18707/200) * (18/25) ^ n) * (18/25) :=
      mul_le_mul hdle hs'hi (le_of_lt hs'pos) (by positivity)
    calc (130 - v) * (s * (17/20) + 9/400)
        ≤ ((18707/200) * (18/25) ^ n) * (18/25) := hmul
      _ = (18707/200) * (18/25) ^ (n+1) := by rw [pow_succ]; ring
  have hv'lo : 130 - (18707/200) * (18/25) ^ (n+1)
      ≤ v * (s * (17/20) + 9/400) + 130 * (1 - (s * (17/20) + 9/400)) := by linarith
  have hv'pos : 0 < v * (s * (17/20) + 9/400) + 130 * (1 - (s * (17/20) + 9/400)) := by
    nlinarith
  have hv'hi : v * (s * (17/20) + 9/400) + 130 * (1 - (s * (17/20) + 9/400)) < 130 := by
    linarith
  have hcast : ((n:ℚ) + 2) ≤ 60 := by
    have : ((n:ℚ) + 2) ≤ ((60:ℕ):ℚ) := by exact_mod_cast hn
    simpa using this
  have hx0 : 0 ≤ y + (v * (s * (17/20) + 9/400) + 130 * (1 - (s * (17/20) + 9/400))) * (1/60) := by
    nlinarith
  have hx1 : y + (v * (s * (17/20) + 9/400) + 130 * (1 - (s * (17/20) + 9/400))) * (1/60)
      < 360 := by nlinarith
  have hyaw : pymod (y + (v * (s * (17/20) + 9/400) + 130 * (1 - (s * (17/20) + 9/400))) * (1/60)) 360
      = y + (v * (s * (17/20) + 9/400) + 130 * (1 - (s * (17/20) + 9/400))) * (1/60) :=
    pymod_eq_self _ _ (by norm_num) hx0 hx1
  rw [hyaw, hp, hdist, hrvp, hzoom]
  have hpitch : np_clip ((0:ℚ) + 0 * (s * (17/20) + 9/400) * (1/60)) (-89) 89 = 0 := by
    norm_num [np_clip]
  have hdist8 : np_clip ((8:ℚ) + 0 * (s * (17/20) + 9/400) * (1/60)) 2 50 = 8 := by
    norm_num [np_clip]
  rw [hpitch, hdist8]
  refine ⟨rfl, rfl, by ring, by ring, hs'lo, hs'hi, by linarith, by linarith, hx0, ?_, ?_⟩
  · push_cast
    linarith [hyhi, hv'hi]
  · push_cast
    have hr : ((18:ℚ)/25) ^ (n+1+1) = ((18:ℚ)/25) ^ (n+1) * (18/25) := pow_succ _ _
    linarith [hyge, hv'lo, hr]

/-- The scenario invariant holds after every update of the first second. -/
theorem c7_inv_all : ∀ n : ℕ, n + 1 ≤ 60 → C7Inv n (cameraSimC7 (n + 1)) := by
  intro n
  induction n with
  | zero => intro _; exact c7_inv_base
  | succ m ih =>
    intro h
    exact c7_inv_step m (cameraSimC7 (m + 1)) (by omega) (ih (by omega))

/-- After 60 frames of the orbit-right scenario the yaw is strictly between
100 and 130 degrees. -/
theorem c7_yaw_bounds :
    100 < (cameraSimC7 60).camera_yaw ∧ (cameraSimC7 60).camera_yaw < 130 := by
  have h := c7_inv_all 59 (by norm_num)
  obtain ⟨-, -, -, -, -, -, -, -, -, hhi, hlo⟩ := h
  have hr_pos : 0 < ((18:ℚ)/25) ^ (59 + 1) := by positivity
  have hr_le : ((18:ℚ)/25) ^ (59 + 1) ≤ 1 := pow_le_one₀ (by norm_num) (by norm_num)
  norm_num at hhi hlo
  constructor
  · nlinarith
  · nlinarith

/-- Counterexample to claim C7: after holding the orbit-right control for
exactly one second (60 frames at `Δt = 1/60`, turbo off) from the default
state, the final yaw is NOT strictly between 0 and 100 degrees — the
effective yaw rate of the controller is `orbit_speed * strafe_speed_multiplier
= 130` °/s, not 100 °/s, and the smoothed yaw passes 100° within the second
(it ends near 126.4°). -/
theorem orbit_scenario_counterexample :
    ¬ (0 < (cameraSimC7 60).camera_yaw ∧ (cameraSimC7 60).camera_yaw < 100) :=
  fun h => absurd h.2 (not_lt.mpr (le_of_lt c7_yaw_bounds.1))

/-- Claim C7 amended: in the same scenario the final yaw is strictly between
0 and 130 degrees — it approaches but does not reach the effective rate
`orbit_speed * strafe_speed_multiplier = 130` °/s because of the smoothing
filter lag, and it has already passed 100°. -/
theorem orbit_scenario_amended :
    0 < (cameraSimC7 60).camera_yaw ∧ 100 < (cameraSimC7 60).camera_yaw ∧
      (cameraSimC7 60).camera_yaw < 130 :=
  ⟨lt_trans (by norm_num) c7_yaw_bounds.1, c7_yaw_bounds.1, c7_yaw_bounds.2⟩
